import Mathlib

/-!
Verification of the watch-debounce-rebuild coordinator and the static-doc
HTTP front end of cargo-docserve, as a shallow embedding of `src/main.rs`
and `src/cargo_doc.rs`.
-/

namespace CargoDocserve

/-- A filesystem path as its list of components; Rust `Path::starts_with`
compares component-wise. -/
abbrev FsPath := List String

/-- Rust `Path::starts_with`: `pathStartsWith p base` is true when `base` is a
component-wise prefix of `p`. -/
def pathStartsWith : FsPath → FsPath → Bool
  | _, [] => true
  | [], _ :: _ => false
  | a :: as, b :: bs => if a = b then pathStartsWith as bs else false

/-- `notify::DebouncedEvent` (notify 4.x), the message type received by the
watch loop in `main` (main.rs lines 100-128). -/
inductive DebouncedEvent where
  | noticeWrite (path : FsPath)
  | noticeRemove (path : FsPath)
  | create (path : FsPath)
  | write (path : FsPath)
  | chmod (path : FsPath)
  | remove (path : FsPath)
  | rename (src dst : FsPath)
  | rescan
  | error (msg : String) (path : Option FsPath)
  deriving DecidableEq

/-- What one iteration of the watch loop in `main` does with a received
message: invoke `run_cargo`, skip it (`continue` or the catch-all arm), or
only log an error. -/
inductive WatchAction where
  | rebuild
  | skip
  | logError
  deriving DecidableEq

/-- One iteration of the watch loop in `main` (main.rs lines 99-129).
`rx.recv()` yields a debounced event or a channel error. Create, Write and
Remove events whose path starts with the target directory are skipped;
Rename events fall into an arm that never inspects the paths and always
rebuilds; NoticeWrite, NoticeRemove, Chmod and Rescan fall to the `_` arm. -/
def watchStep (targetDirectory : FsPath) : Except String DebouncedEvent → WatchAction
  | .ok (.create p) | .ok (.write p) | .ok (.remove p) =>
    if pathStartsWith p targetDirectory then .skip else .rebuild
  | .ok (.rename _ _) => .rebuild
  | .ok (.error _ _) => .logError
  | .error _ => .logError
  | .ok _ => .skip

/-- A `notify` 5.x event as handed to the watcher callback in cargo_doc.rs. -/
structure NotifyEvent where
  paths : List FsPath
  deriving DecidableEq

/-- Messages on the notify channel (cargo_doc.rs lines 16-19). -/
inductive NotifyMsg where
  | event (res : Except String NotifyEvent)
  | shutdown

/-- Messages on the cargo channel (cargo_doc.rs lines 21-24). -/
inductive CargoMsg where
  | run
  | shutdown
  deriving DecidableEq

/-- The notify thread body (cargo_doc.rs lines 84-103): for every Ok event a
`CargoMsg.run` is forwarded, errors are logged, and a Shutdown message or a
closed channel (end of the list) breaks the loop. The result is the sequence
of messages sent on the run channel. -/
def notifyLoop : List NotifyMsg → List CargoMsg
  | [] => []
  | .event (.ok _) :: rest => .run :: notifyLoop rest
  | .event (.error _) :: rest => notifyLoop rest
  | .shutdown :: _ => []

/-- The drain loop inside the cargo thread (cargo_doc.rs lines 113-117):
`try_recv` until the channel is empty, breaking out of the whole thread loop
if a Shutdown message is drained. Returns true iff a Shutdown was observed. -/
def drainShutdown : List CargoMsg → Bool
  | [] => false
  | .shutdown :: _ => true
  | .run :: rest => drainShutdown rest

/-- Remainder of the cargo channel after the drain loop: everything up to and
including the first Shutdown message has been consumed. -/
def drainRest : List CargoMsg → List CargoMsg
  | [] => []
  | .shutdown :: rest => rest
  | .run :: rest => drainRest rest

/-- The cargo thread (cargo_doc.rs lines 106-126) over a trace grouped into
bursts: each inner list is the channel content consumed by one
`recv` + 10ms sleep + drain cycle, i.e. one debounce window. Returns the
number of `cargo doc` invocations. A Shutdown that is received directly, or
observed while draining, stops the loop and discards the rest of the trace. -/
def cargoLoop : List (List CargoMsg) → Nat
  | [] => 0
  | [] :: rest => cargoLoop rest
  | (.shutdown :: _) :: _ => 0
  | (.run :: tail) :: rest =>
    if drainShutdown tail then 0 else 1 + cargoLoop rest

/-- Thread state of the notify forwarding loop. -/
inductive NotifySt where
  | listening
  | stopped
  deriving DecidableEq

/-- Thread state of the cargo rebuild loop: `sleeping` is the 10ms debounce
sleep entered after receiving a Run, `building` is a synchronous `run`
invocation in flight. -/
inductive CargoSt where
  | idle
  | sleeping
  | building
  | stopped
  deriving DecidableEq

/-- Combined state of the two coordinator threads of cargo_doc.rs and their
two channels. The notify thread has no building state: it never invokes the
Builder, it only forwards messages. -/
structure CoordState where
  notifyQ : List NotifyMsg
  cargoQ : List CargoMsg
  notifySt : NotifySt
  cargoSt : CargoSt

/-- The initial coordinator state: both channels empty, both loops at their
blocking receive. -/
def coordInit : CoordState :=
  { notifyQ := [], cargoQ := [], notifySt := .listening, cargoSt := .idle }

/-- Interleaved small-step semantics of the coordinator (cargo_doc.rs lines
51-135): the watcher callback, the shutdown handle, the notify thread and the
cargo thread each take atomic steps in any order. -/
inductive CoordStep : CoordState → CoordState → Prop where
  | emitEvent (s : CoordState) (res : Except String NotifyEvent) :
    CoordStep s { s with notifyQ := s.notifyQ ++ [.event res] }
  | invokeShutdown (s : CoordState) :
    CoordStep s { s with notifyQ := s.notifyQ ++ [.shutdown],
                         cargoQ := s.cargoQ ++ [.shutdown] }
  | notifyOk (s : CoordState) (e : NotifyEvent) (q : List NotifyMsg)
    (hst : s.notifySt = .listening) (hq : s.notifyQ = .event (.ok e) :: q) :
    CoordStep s { s with notifyQ := q, cargoQ := s.cargoQ ++ [.run] }
  | notifyErr (s : CoordState) (msg : String) (q : List NotifyMsg)
    (hst : s.notifySt = .listening) (hq : s.notifyQ = .event (.error msg) :: q) :
    CoordStep s { s with notifyQ := q }
  | notifyShutdown (s : CoordState) (q : List NotifyMsg)
    (hst : s.notifySt = .listening) (hq : s.notifyQ = .shutdown :: q) :
    CoordStep s { s with notifyQ := q, notifySt := .stopped }
  | cargoRecvRun (s : CoordState) (q : List CargoMsg)
    (hst : s.cargoSt = .idle) (hq : s.cargoQ = .run :: q) :
    CoordStep s { s with cargoQ := q, cargoSt := .sleeping }
  | cargoRecvShutdown (s : CoordState) (q : List CargoMsg)
    (hst : s.cargoSt = .idle) (hq : s.cargoQ = .shutdown :: q) :
    CoordStep s { s with cargoQ := q, cargoSt := .stopped }
  | cargoDrainBuild (s : CoordState)
    (hst : s.cargoSt = .sleeping) (hdr : drainShutdown s.cargoQ = false) :
    CoordStep s { s with cargoQ := [], cargoSt := .building }
  | cargoDrainShutdown (s : CoordState)
    (hst : s.cargoSt = .sleeping) (hdr : drainShutdown s.cargoQ = true) :
    CoordStep s { s with cargoQ := drainRest s.cargoQ, cargoSt := .stopped }
  | cargoBuildDone (s : CoordState)
    (hst : s.cargoSt = .building) :
    CoordStep s { s with cargoSt := .idle }

/-- States reachable from the initial coordinator state. -/
inductive CoordReachable : CoordState → Prop where
  | init : CoordReachable coordInit
  | step (s t : CoordState) : CoordReachable s → CoordStep s t → CoordReachable t

/-- Number of Builder invocations in flight in a coordinator state: the cargo
thread is the only thread that ever calls `run`, and does so synchronously
while in the `building` state. -/
def buildsInFlight (s : CoordState) : Nat :=
  if s.cargoSt = .building then 1 else 0

/-- `ExitStatus::success()` for a Rust `std::process::ExitStatus` whose
`code()` is `code` (`none` when terminated by a signal): success means exit
code zero. -/
def statusSuccess (code : Option Int) : Bool :=
  code = some 0

/-- Outcome of `Command::status()`: the command was spawned and ran to
completion with an exit status, or the OS failed to spawn it. -/
inductive SpawnOutcome where
  | ran (code : Option Int)
  | ioError (cause : String)
  deriving DecidableEq

/-- The error a failed rebuild returns: a non-success exit carrying
`status.code()`, or the spawn failure cause propagated by `?`. -/
inductive BuildError where
  | nonZeroExit (code : Option Int)
  | spawnFailed (cause : String)
  deriving DecidableEq

/-- `run_cargo` (main.rs lines 201-220) and `run` (cargo_doc.rs lines 27-46):
block on `cmd.status()`; a spawn failure is propagated by `?`, a completed
command succeeds iff `status.success()`, and otherwise the error carries
`status.code()`. -/
def run_cargo (outcome : SpawnOutcome) : Except BuildError Unit :=
  match outcome with
  | .ioError cause => .error (.spawnFailed cause)
  | .ran code => if statusSuccess code then .ok () else .error (.nonZeroExit code)

/-- A package in the cargo metadata. -/
structure Package where
  name : String
  deriving DecidableEq

/-- The slice of the cargo metadata consumed by `main` (main.rs lines 59-72).
`rootPackage` is the root package the metadata may designate; the code never
reads it, which matters for the package-choice claim. -/
structure Metadata where
  packages : List Package
  rootPackage : Option String
  workspace_root : FsPath
  target_directory : FsPath
  deriving DecidableEq

/-- The package whose docs the root path redirects to (main.rs lines 67-71):
`metadata.packages.get(0)`, an error when the list is empty. -/
def choosePackage (md : Metadata) : Option String :=
  md.packages.head?.map Package.name

/-- The package choice as the spec words it, stated only for comparison with
`choosePackage`: the metadata-reported root package when one is designated,
otherwise the first package enumerated. -/
def choosePackageSpec (md : Metadata) : Option String :=
  match md.rootPackage with
  | some r => some r
  | none => md.packages.head?.map Package.name

/-- Rust `str::replace('-', "_")`: every dash becomes an underscore. -/
def replaceDashes (s : String) : String :=
  String.mk (s.toList.map fun c => if c = '-' then '_' else c)

/-- The redirect target computed once at startup (main.rs line 72):
`format!("{}/index.html", package.replace('-', "_"))`. -/
def indexFor (package : String) : String :=
  replaceDashes package ++ "/index.html"

/-- An incoming HTTP request, as far as `DocService::call` inspects it. -/
structure HRequest where
  method : String
  path : String
  deriving DecidableEq

/-- The future returned by `DocService::call` (main.rs lines 144-147): the
root redirect, or the static-file future for the request handed to
`hyper_staticfile`. -/
inductive RoutesFuture where
  | root (index : String)
  | docs (req : HRequest)
  deriving DecidableEq

/-- `DocService::call` (main.rs lines 191-198): a request whose URI path is
exactly `/` gets the redirect future, every other path goes to static file
serving. Only the path is inspected. -/
def docServiceCall (redirect : String) (req : HRequest) : RoutesFuture :=
  if req.path = "/" then .root redirect else .docs req

/-- The root-redirect HTTP response, as far as `RoutesFuture::poll` builds
it. -/
structure HResponse where
  status : Nat
  location : Option String
  bodyEmpty : Bool
  deriving DecidableEq

/-- `RoutesFuture::poll` on the `Root` variant (main.rs lines 155-162):
status 303 See Other, the `Location` header set to the stored index string,
and an empty body. -/
def pollRoot (index : String) : HResponse :=
  { status := 303, location := some index, bodyEmpty := true }

/-- Observable outcome of the startup path of `main` (main.rs lines 59-141)
up to binding the listener: how many rebuilds ran before `Server::bind`,
whether the listener was bound, and whether `main` returned Ok (exit code
zero). -/
structure StartupResult where
  buildsBeforeBind : Nat
  bound : Bool
  exitOk : Bool
  deriving DecidableEq

/-- The startup path of `main` as a function of the metadata and the outcome
of the initial `cargo doc` run: resolving the package fails when there are no
packages (before any rebuild); otherwise `run_cargo` runs exactly once, its
failure is propagated by `?` before `Server::bind` is reached. -/
def mainStartup (md : Metadata) (outcome : SpawnOutcome) : StartupResult :=
  match choosePackage md with
  | none => { buildsBeforeBind := 0, bound := false, exitOk := false }
  | some _ =>
    match run_cargo outcome with
    | .error _ => { buildsBeforeBind := 1, bound := false, exitOk := false }
    | .ok _ => { buildsBeforeBind := 1, bound := true, exitOk := true }

/-- The watch-registration loop in `main` (main.rs lines 91-98): every path
is attempted in order; a failure is logged and the loop continues.
`register p = true` means the OS accepted the watch. Returns the list of
paths actually being watched. -/
def mainWatchLoop (register : FsPath → Bool) : List FsPath → List FsPath
  | [] => []
  | p :: rest =>
    if register p then p :: mainWatchLoop register rest
    else mainWatchLoop register rest

/-- Watch registration in `main`: the workspace root, then each extra path,
all best-effort. -/
def mainWatchSetup (register : FsPath → Bool) (root : FsPath)
    (extras : List FsPath) : List FsPath :=
  mainWatchLoop register (root :: extras)

/-- The extras loop of `watch` in cargo_doc.rs (lines 71-75): each
registration is followed by `?`, so the first failing path aborts with that
path as the error. -/
def cargoDocWatchExtras (register : FsPath → Bool) :
    List FsPath → Except FsPath (List FsPath)
  | [] => .ok []
  | p :: rest =>
    if register p then (cargoDocWatchExtras register rest).map (p :: ·)
    else .error p

/-- The registration prefix of `watch` in cargo_doc.rs (lines 62-75): the
workspace root with `?`, then the extras loop. On success all configured
paths are registered (the target directory is unwatched just after); on
failure `watch` returns the first failing path before spawning any thread. -/
def cargoDocWatchSetup (register : FsPath → Bool) (root : FsPath)
    (extras : List FsPath) : Except FsPath (List FsPath) :=
  if register root then (cargoDocWatchExtras register extras).map (root :: ·)
  else .error root

/-- A concrete metadata value whose designated root package `a` is not the
first enumerated package `b`. -/
def mdBA : Metadata :=
  { packages := [{ name := "b" }, { name := "a" }], rootPackage := some "a",
    workspace_root := ["w"], target_directory := ["t"] }

/-- A concrete metadata value with a single package `b` and no designated
root. -/
def mdB : Metadata :=
  { packages := [{ name := "b" }], rootPackage := none,
    workspace_root := ["w"], target_directory := ["t"] }

/-! ### Helper lemmas -/

/-- Draining a queue of only Run messages observes no shutdown. -/
theorem drainShutdown_all_run (l : List CargoMsg)
    (h : ∀ m ∈ l, m = CargoMsg.run) : drainShutdown l = false := by
  induction l with
  | nil => rfl
  | cons x xs ih =>
    have hx : x = CargoMsg.run := h x (List.mem_cons_self x xs)
    subst hx
    show drainShutdown xs = false
    exact ih fun m hm => h m (List.mem_cons_of_mem _ hm)

/-- Draining a queue that contains a Shutdown message observes it. -/
theorem drainShutdown_of_mem (l : List CargoMsg)
    (h : CargoMsg.shutdown ∈ l) : drainShutdown l = true := by
  induction l with
  | nil => cases h
  | cons x xs ih =>
    cases x with
    | shutdown => rfl
    | run =>
      show drainShutdown xs = true
      rcases List.mem_cons.mp h with h1 | h2
      · exact absurd h1 (by decide)
      · exact ih h2

/-- Messages queued behind a Shutdown on the notify channel are ignored. -/
theorem notifyLoop_append_shutdown (pre post : List NotifyMsg) :
    notifyLoop (pre ++ NotifyMsg.shutdown :: post) = notifyLoop pre := by
  induction pre with
  | nil => rfl
  | cons x xs ih =>
    cases x with
    | event res =>
      cases res with
      | ok e => simpa [notifyLoop] using ih
      | error msg => simpa [notifyLoop] using ih
    | shutdown => rfl

/-- The best-effort registration loop of `main` registers exactly the paths
the OS accepts. -/
theorem mainWatchLoop_eq_filter (register : FsPath → Bool) (l : List FsPath) :
    mainWatchLoop register l = l.filter register := by
  induction l with
  | nil => rfl
  | cons p rest ih =>
    by_cases hp : register p = true
    · simp [mainWatchLoop, List.filter, hp, ih]
    · have hpf : register p = false := by
        cases hv : register p with
        | false => rfl
        | true => exact absurd hv hp
      simp [mainWatchLoop, List.filter, hpf, ih]

/-- The extras loop of cargo_doc.rs errors exactly when some extra path fails
to register. -/
theorem cargoDocWatchExtras_error_iff (register : FsPath → Bool)
    (extras : List FsPath) :
    (∃ e, cargoDocWatchExtras register extras = .error e) ↔
      ∃ p ∈ extras, register p = false := by
  induction extras with
  | nil =>
    constructor
    · rintro ⟨e, he⟩
      exact absurd he (by simp [cargoDocWatchExtras])
    · rintro ⟨p, hp, _⟩
      cases hp
  | cons q rest ih =>
    by_cases hq : register q = true
    · constructor
      · rintro ⟨e, he⟩
        rw [show cargoDocWatchExtras register (q :: rest)
            = (cargoDocWatchExtras register rest).map (q :: ·) from by
          simp [cargoDocWatchExtras, hq]] at he
        cases hr : cargoDocWatchExtras register rest with
        | ok l => rw [hr] at he; exact absurd he (by simp [Except.map])
        | error e2 =>
          have : ∃ p ∈ rest, register p = false := ih.mp ⟨e2, hr⟩
          rcases this with ⟨p, hp, hpf⟩
          exact ⟨p, List.mem_cons_of_mem _ hp, hpf⟩
      · rintro ⟨p, hp, hpf⟩
        rcases List.mem_cons.mp hp with h1 | h2
        · subst h1; rw [hq] at hpf; cases hpf
        · rcases ih.mpr ⟨p, h2, hpf⟩ with ⟨e, he⟩
          refine ⟨e, ?_⟩
          simp [cargoDocWatchExtras, hq, he, Except.map]
    · have hqf : register q = false := by
        cases hqv : register q with
        | false => rfl
        | true => exact absurd hqv hq
      constructor
      · intro _
        exact ⟨q, List.mem_cons_self q rest, hqf⟩
      · intro _
        exact ⟨q, by simp [cargoDocWatchExtras, hqf]⟩

/-! ### Claim theorems -/

/-- C1: counterexample. The claim says no event under the excluded target
subtree ever triggers a rebuild, for every event kind including renames. In
the watch loop of `main`, a Rename event both of whose paths lie under the
target directory nevertheless takes the unconditional rebuild arm. -/
theorem C1_counterexample :
    watchStep ["proj", "target"]
      (.ok (.rename ["proj", "target", "doc", "a.html"]
        ["proj", "target", "doc", "b.html"])) = .rebuild := by
  rfl

/-- C1 (amended): Create, Write and Remove events whose path lies under the
target directory are filtered and never trigger a rebuild; Rename events
trigger a rebuild unconditionally, even when both their paths lie under the
target directory. -/
theorem C1_target_exclusion (target p src dst : FsPath)
    (h : pathStartsWith p target = true) :
    watchStep target (.ok (.create p)) = .skip ∧
    watchStep target (.ok (.write p)) = .skip ∧
    watchStep target (.ok (.remove p)) = .skip ∧
    watchStep target (.ok (.rename src dst)) = .rebuild := by
  refine ⟨?_, ?_, ?_, rfl⟩ <;> simp [watchStep, h]

/-- C1 (amended) at a concrete input: paths under `proj/target` with
Create, Write and Remove are skipped while Rename rebuilds. -/
theorem C1_target_exclusion_witness :
    watchStep ["proj", "target"] (.ok (.create ["proj", "target", "x"])) = .skip ∧
    watchStep ["proj", "target"] (.ok (.write ["proj", "target", "x"])) = .skip ∧
    watchStep ["proj", "target"] (.ok (.remove ["proj", "target", "x"])) = .skip ∧
    watchStep ["proj", "target"] (.ok (.rename ["a"] ["b"])) = .rebuild :=
  C1_target_exclusion ["proj", "target"] ["proj", "target", "x"] ["a"] ["b"]
    (by decide)

/-- C2: a burst of N ≥ 1 messages, all of them Run, handled within one
debounce window (one receive + sleep + drain cycle of the cargo thread)
causes exactly one Builder invocation on top of whatever later bursts
cause. -/
theorem C2_coalesce (burst : List CargoMsg) (rest : List (List CargoMsg))
    (hne : burst ≠ []) (hall : ∀ m ∈ burst, m = CargoMsg.run) :
    cargoLoop (burst :: rest) = 1 + cargoLoop rest := by
  cases burst with
  | nil => exact absurd rfl hne
  | cons x tail =>
    have hx : x = CargoMsg.run := hall x (List.mem_cons_self x tail)
    subst hx
    have hd : drainShutdown tail = false :=
      drainShutdown_all_run tail fun m hm => hall m (List.mem_cons_of_mem _ hm)
    simp [cargoLoop, hd]

/-- C2 at a concrete input: a burst of three Run messages causes exactly one
rebuild. -/
theorem C2_coalesce_witness :
    cargoLoop [[CargoMsg.run, CargoMsg.run, CargoMsg.run]] = 1 := by
  have h := C2_coalesce [CargoMsg.run, CargoMsg.run, CargoMsg.run] []
    (by decide) (by decide)
  simpa [cargoLoop] using h

/-- C3: in every reachable state of the interleaved coordinator semantics at
most one Builder invocation is in flight: the notify thread never builds and
the single cargo thread invokes `run` synchronously from its one `building`
state. -/
theorem C3_at_most_one_build (s : CoordState) (h : CoordReachable s) :
    buildsInFlight s ≤ 1 := by
  unfold buildsInFlight
  split <;> decide

/-- C3 at a concrete state: the initial state is reachable and has at most
one build in flight. -/
theorem C3_at_most_one_build_witness : buildsInFlight coordInit ≤ 1 :=
  C3_at_most_one_build coordInit CoordReachable.init

/-- C4: a Shutdown message observed among the messages drained during the
debounce wait makes the cargo loop exit immediately — the pending rebuild is
not performed and no queued later burst causes a rebuild — and every message
behind a Shutdown on the notify channel is ignored, so both loops reach
their terminal state once the shutdown handle's messages are delivered and
the joins in the shutdown closure return. -/
theorem C4_shutdown (tail : List CargoMsg) (rest : List (List CargoMsg))
    (pre post : List NotifyMsg) (h : CargoMsg.shutdown ∈ tail) :
    cargoLoop ((CargoMsg.run :: tail) :: rest) = 0 ∧
    notifyLoop (pre ++ NotifyMsg.shutdown :: post) = notifyLoop pre := by
  constructor
  · have hd := drainShutdown_of_mem tail h
    simp [cargoLoop, hd]
  · exact notifyLoop_append_shutdown pre post

/-- C4 at a concrete input: a burst `[Run, Run, Shutdown]` with another Run
burst queued behind it yields no rebuild at all, and an event queued behind
the Shutdown on the notify channel is not forwarded. -/
theorem C4_shutdown_witness :
    cargoLoop [[CargoMsg.run, CargoMsg.run, CargoMsg.shutdown],
      [CargoMsg.run]] = 0 ∧
    notifyLoop ([NotifyMsg.event (.ok ⟨[]⟩)] ++ NotifyMsg.shutdown ::
      [NotifyMsg.event (.ok ⟨[]⟩)]) = notifyLoop [NotifyMsg.event (.ok ⟨[]⟩)] :=
  C4_shutdown [CargoMsg.run, CargoMsg.shutdown] [[CargoMsg.run]]
    [NotifyMsg.event (.ok ⟨[]⟩)] [NotifyMsg.event (.ok ⟨[]⟩)] (by decide)

/-- C5: counterexample. The claim says the Location target of the root
redirect equals `/<p'>/index.html` with a leading slash. For the package
`my-crate` the code computes `my_crate/index.html` — no leading slash is
prepended — so the served Location value differs from the claimed one. -/
theorem C5_counterexample :
    (pollRoot (indexFor "my-crate")).location = some "my_crate/index.html" ∧
    (pollRoot (indexFor "my-crate")).location ≠ some "/my_crate/index.html" := by
  constructor
  · rfl
  · decide

/-- C5 (amended): a request for `/` yields a redirect whose Location value is
`<p'>/index.html`, the package name with every dash replaced by an
underscore and no leading slash — a relative reference which resolves to
`/<p'>/index.html` against the request URI `/`. -/
theorem C5_root_redirect (p : String) (req : HRequest) (h : req.path = "/") :
    docServiceCall (indexFor p) req =
      RoutesFuture.root (replaceDashes p ++ "/index.html") ∧
    pollRoot (indexFor p) =
      { status := 303, location := some (replaceDashes p ++ "/index.html"),
        bodyEmpty := true } := by
  constructor
  · simp [docServiceCall, h, indexFor]
  · rfl

/-- C5 (amended) at a concrete input: package `my-crate`, a GET for `/`. -/
theorem C5_root_redirect_witness :
    docServiceCall (indexFor "my-crate") { method := "GET", path := "/" } =
      RoutesFuture.root (replaceDashes "my-crate" ++ "/index.html") ∧
    pollRoot (indexFor "my-crate") =
      { status := 303,
        location := some (replaceDashes "my-crate" ++ "/index.html"),
        bodyEmpty := true } :=
  C5_root_redirect "my-crate" { method := "GET", path := "/" } rfl

/-- C6: counterexample. With a designated root package `a` that is not first
in the package list, the code still redirects to the first package `b`,
while the spec's choice would be `a`. -/
theorem C6_counterexample :
    choosePackage mdBA ≠ some "a" ∧
    choosePackage mdBA = some "b" ∧
    choosePackageSpec mdBA = some "a" := by
  refine ⟨by decide, rfl, rfl⟩

/-- C6 (amended): the redirect package is always the first package
enumerated in the metadata, regardless of any designated root package; when
the metadata has no packages, startup errors out before any rebuild or bind
happens. -/
theorem C6_package_choice (md : Metadata) (r : Option String)
    (o : SpawnOutcome) (p : Package) (rest : List Package)
    (h : md.packages = p :: rest) :
    choosePackage md = some p.name ∧
    choosePackage { md with rootPackage := r } = choosePackage md ∧
    mainStartup { md with packages := [] } o =
      { buildsBeforeBind := 0, bound := false, exitOk := false } := by
  refine ⟨?_, rfl, rfl⟩
  simp [choosePackage, h]

/-- C6 (amended) at a concrete input. -/
theorem C6_package_choice_witness :
    choosePackage mdBA = some "b" ∧
    choosePackage { mdBA with rootPackage := none } = choosePackage mdBA ∧
    mainStartup { mdBA with packages := [] } (.ran (some 0)) =
      { buildsBeforeBind := 0, bound := false, exitOk := false } :=
  C6_package_choice mdBA none (.ran (some 0)) { name := "b" }
    [{ name := "a" }] rfl

/-- C7: the rebuild succeeds iff the spawned command ran and exited with a
success status; a completed command with a non-success status yields the
error carrying `status.code()`, and a spawn failure yields the error
carrying its cause. The exit status is an input of the embedding because
`cmd.status()` blocks until the command has exited. -/
theorem C7_run_cargo (o : SpawnOutcome) :
    (run_cargo o = .ok () ↔ ∃ c, o = .ran c ∧ statusSuccess c = true) ∧
    (∀ c, o = .ran c → statusSuccess c = false →
      run_cargo o = .error (.nonZeroExit c)) ∧
    (∀ e, o = .ioError e → run_cargo o = .error (.spawnFailed e)) := by
  cases o with
  | ran c =>
    refine ⟨?_, ?_, ?_⟩
    · by_cases hc : statusSuccess c = true
      · simp [run_cargo, hc]
      · have hcf : statusSuccess c = false := by
          cases hv : statusSuccess c with
          | false => rfl
          | true => exact absurd hv hc
        simp [run_cargo, hcf]
    · intro c2 hc2 hfail
      cases hc2
      simp [run_cargo, hfail]
    · intro e he
      cases he
  | ioError cause =>
    refine ⟨?_, ?_, ?_⟩
    · simp [run_cargo]
    · intro c hc
      cases hc
    · intro e he
      cases he
      rfl

/-- C8: when the metadata has at least one package, startup performs exactly
one rebuild before the listener is bound, and the process exits with a
nonzero status without binding if and only if that rebuild fails. -/
theorem C8_startup (md : Metadata) (o : SpawnOutcome) (h : md.packages ≠ []) :
    (mainStartup md o).buildsBeforeBind = 1 ∧
    (((mainStartup md o).bound = false ∧ (mainStartup md o).exitOk = false) ↔
      run_cargo o ≠ .ok ()) := by
  cases hp : md.packages with
  | nil => exact absurd hp h
  | cons p rest =>
    have hc : choosePackage md = some p.name := by
      simp [choosePackage, hp]
    cases hr : run_cargo o with
    | ok u =>
      cases u
      constructor
      · simp [mainStartup, hc, hr]
      · simp [mainStartup, hc, hr]
    | error e =>
      constructor
      · simp [mainStartup, hc, hr]
      · simp [mainStartup, hc, hr]

/-- C8 at a concrete input: one package and a failing initial build (exit
code 101) gives one rebuild, no bind and a nonzero exit. -/
theorem C8_startup_witness :
    (mainStartup mdB (.ran (some 101))).buildsBeforeBind = 1 ∧
    (((mainStartup mdB (.ran (some 101))).bound = false ∧
      (mainStartup mdB (.ran (some 101))).exitOk = false) ↔
      run_cargo (.ran (some 101)) ≠ .ok ()) :=
  C8_startup mdB (.ran (some 101)) (by decide)

/-- C9: counterexample. The claim says a failed watch registration never
terminates the watch subsystem and watching continues for remaining paths.
In the watch setup of cargo_doc.rs a failing extra path aborts registration
with an error: `watch` returns before spawning any thread and the following
good path is never registered. -/
theorem C9_counterexample :
    cargoDocWatchSetup (fun p => decide (p ≠ ["bad"])) ["root"]
      [["bad"], ["good"]] = .error ["bad"] := by
  rfl

/-- C9 (amended): in the watch loop of `main` registration is best-effort —
every path the OS accepts is watched no matter how many other paths failed,
and the process continues; in `watch` of cargo_doc.rs registration is
all-or-nothing — setup returns an error exactly when the workspace root or
some extra path fails to register, and on success all configured paths are
registered. -/
theorem C9_watch_registration (register : FsPath → Bool) (root : FsPath)
    (extras : List FsPath) :
    mainWatchSetup register root extras = (root :: extras).filter register ∧
    ((∃ e, cargoDocWatchSetup register root extras = .error e) ↔
      register root = false ∨ ∃ p ∈ extras, register p = false) := by
  constructor
  · exact mainWatchLoop_eq_filter register (root :: extras)
  · by_cases hr : register root = true
    · constructor
      · rintro ⟨e, he⟩
        rw [show cargoDocWatchSetup register root extras
            = (cargoDocWatchExtras register extras).map (root :: ·) from by
          simp [cargoDocWatchSetup, hr]] at he
        cases hx : cargoDocWatchExtras register extras with
        | ok l => rw [hx] at he; exact absurd he (by simp [Except.map])
        | error e2 =>
          exact Or.inr ((cargoDocWatchExtras_error_iff register extras).mp
            ⟨e2, hx⟩)
      · rintro (h1 | h2)
        · rw [hr] at h1; cases h1
        · rcases (cargoDocWatchExtras_error_iff register extras).mpr h2
            with ⟨e, he⟩
          exact ⟨e, by simp [cargoDocWatchSetup, hr, he, Except.map]⟩
    · have hrf : register root = false := by
        cases hv : register root with
        | false => rfl
        | true => exact absurd hv hr
      constructor
      · intro _
        exact Or.inl hrf
      · intro _
        exact ⟨root, by simp [cargoDocWatchSetup, hrf]⟩

/-- C10: every request whose URI path is exactly `/` — whatever its method —
gets the 303 See Other redirect with an empty body, the method never being
inspected, and every request with any other path is dispatched to static
file serving. -/
theorem C10_routing (redirect m m2 p : String) (h : p ≠ "/") :
    docServiceCall redirect { method := m, path := "/" } =
      RoutesFuture.root redirect ∧
    docServiceCall redirect { method := m, path := "/" } =
      docServiceCall redirect { method := m2, path := "/" } ∧
    (pollRoot redirect).status = 303 ∧
    (pollRoot redirect).bodyEmpty = true ∧
    docServiceCall redirect { method := m, path := p } =
      RoutesFuture.docs { method := m, path := p } := by
  refine ⟨?_, ?_, rfl, rfl, ?_⟩
  · simp [docServiceCall]
  · simp [docServiceCall]
  · simp [docServiceCall, h]

/-- C10 at a concrete input: a POST for `/` gets the same redirect as a GET,
and a GET for `/foo` goes to static serving. -/
theorem C10_routing_witness :
    docServiceCall "my_crate/index.html" { method := "POST", path := "/" } =
      RoutesFuture.root "my_crate/index.html" ∧
    docServiceCall "my_crate/index.html" { method := "POST", path := "/" } =
      docServiceCall "my_crate/index.html" { method := "GET", path := "/" } ∧
    (pollRoot "my_crate/index.html").status = 303 ∧
    (pollRoot "my_crate/index.html").bodyEmpty = true ∧
    docServiceCall "my_crate/index.html" { method := "POST", path := "/foo" } =
      RoutesFuture.docs { method := "POST", path := "/foo" } :=
  C10_routing "my_crate/index.html" "POST" "GET" "/foo" (by decide)

end CargoDocserve
